import Mathlib

/- Verification of the flight booking system in `src/main.py`.

   Embedding conventions:
   * `datetime` values are embedded as `Int` timestamps; only their linear
     order is ever used by the program (`datum > datetime.now()`,
     `datum < datetime.now()`).  Concrete dates are written `YYYYMMDD`,
     which is order-preserving for valid dates.
   * Monetary values (`float` in the source, "decimal" in the data model)
     are embedded as `ℚ`; the literals `0.8`, `1.3`, `0.7` are exact.
   * `random.choices` inside `JegyFoglalas._generate_foglalas_id` is
     embedded as an oracle `gen : Nat → String` together with a counter:
     `gen k` is the k-th identifier the global generator would produce.
   * Python's `str.strip()`, `str.upper()`, `str.lower()` are embedded as
     `pyStrip`, `pyUpper`, `pyLower` (ASCII case mapping, as all data in
     the program's comparisons is ASCII).
   * `input()` values are parameters of the operation functions;
     `int(input())` and `float(input())` and `datetime.strptime` are
     passed as `Option` values (`none` = the `ValueError` branch).
   * The unbounded `while` regeneration loop in `jegy_foglalas` is given
     explicit fuel; exhausting the fuel models non-termination and is
     reported by the dedicated result `elakadt`. -/

/-- Python `str.strip()`: drop whitespace from both ends. -/
def pyStrip (s : String) : String :=
  ⟨((s.data.dropWhile Char.isWhitespace).reverse.dropWhile Char.isWhitespace).reverse⟩

/-- Python `str.upper()` (ASCII range). -/
def pyUpper (s : String) : String := ⟨s.data.map Char.toUpper⟩

/-- Python `str.lower()` (ASCII range). -/
def pyLower (s : String) : String := ⟨s.data.map Char.toLower⟩

/-- `class JaratStatusz` (src/main.py line 38). -/
def JaratStatusz.AKTIV : String := "AKTÍV"

/-- `class JaratStatusz` (src/main.py line 40). -/
def JaratStatusz.INAKTIV : String := "INAKTÍV"

/-- Tag distinguishing the two concrete subclasses of the abstract class
`Jarat`: `BelfoldiJarat` and `NemzetkoziJarat`.  The source discriminates
them by `isinstance`; following the spec's design note the embedding uses
an explicit tag. -/
inductive JaratTipus where
  | belfoldi
  | nemzetkozi
deriving DecidableEq, BEq, Inhabited, Repr

/-- State of one `Jarat` object (src/main.py lines 43-57), plus the `tipus`
tag replacing the runtime class and the subclass field `repulesi_ido`. -/
structure Jarat where
  jaratszam : String
  indulo_repter : String
  celallomas : String
  jegyar : ℚ
  legitarsasag : String
  datum : Int
  statusz : String
  tipus : JaratTipus
  repulesi_ido : Nat
deriving DecidableEq, Inhabited, Repr

/-- `Jarat.__init__` (src/main.py lines 45-53): stores the fields and derives
`statusz` once, from `datum > datetime.now()`.  `now` is the construction
time. -/
def Jarat.init (tipus : JaratTipus) (repulesi_ido : Nat) (jaratszam indulo_repter celallomas : String)
    (jegyar : ℚ) (legitarsasag : String) (datum : Int) (now : Int) : Jarat :=
  { jaratszam := jaratszam
    indulo_repter := indulo_repter
    celallomas := celallomas
    jegyar := jegyar
    legitarsasag := legitarsasag
    datum := datum
    statusz := if datum > now then JaratStatusz.AKTIV else JaratStatusz.INAKTIV
    tipus := tipus
    repulesi_ido := repulesi_ido }

/-- `BelfoldiJarat.__init__` (src/main.py lines 68-71): price `ar * 0.8`,
flight time 2 hours. -/
def BelfoldiJarat.init (jaratszam indulo cel : String) (ar : ℚ) (legitarsasag : String)
    (datum now : Int) : Jarat :=
  Jarat.init .belfoldi 2 jaratszam indulo cel (ar * (0.8 : ℚ)) legitarsasag datum now

/-- `NemzetkoziJarat.__init__` (src/main.py lines 79-82): price `ar * 1.3`,
flight time 8 hours. -/
def NemzetkoziJarat.init (jaratszam indulo cel : String) (ar : ℚ) (legitarsasag : String)
    (datum now : Int) : Jarat :=
  Jarat.init .nemzetkozi 8 jaratszam indulo cel (ar * (1.3 : ℚ)) legitarsasag datum now

/-- State of one `Legitarsasag` object (src/main.py lines 88-92). -/
structure Legitarsasag where
  nev : String
  jaratok : List Jarat
deriving DecidableEq, Inhabited, Repr

/-- `Legitarsasag.jarat_hozzaadasa` (src/main.py lines 94-97): raise
`ValueError` when some existing flight has the same `jaratszam`, else
append. -/
def Legitarsasag.jarat_hozzaadasa (l : Legitarsasag) (jarat : Jarat) :
    Except String Legitarsasag :=
  if l.jaratok.any fun j => j.jaratszam == jarat.jaratszam then
    .error ("A " ++ jarat.jaratszam ++ " járatszám már létezik!")
  else
    .ok { l with jaratok := l.jaratok ++ [jarat] }

/-- `Legitarsasag.get_jarat_by_jaratszam` (src/main.py lines 99-103). -/
def Legitarsasag.get_jarat_by_jaratszam (l : Legitarsasag) (jaratszam : String) : Option Jarat :=
  l.jaratok.find? fun jarat => jarat.jaratszam == jaratszam

/-- State of one `JegyFoglalas` object (src/main.py lines 106-116). -/
structure JegyFoglalas where
  foglalas_id : String
  jaratszam : String
  indulo : String
  celallomas : String
  datum : Int
  utas_nev : String
  ar : ℚ
  statusz : String
deriving DecidableEq, Inhabited, Repr

/-- `JegyFoglalas.__init__` (src/main.py lines 108-116):
`_generate_foglalas_id` draws the next identifier from the random source,
embedded as `gen k`; the flight's route, date and price are copied and the
status starts as `"Aktív"`. -/
def JegyFoglalas.init (gen : Nat → String) (k : Nat) (jarat : Jarat) (utas_nev : String) :
    JegyFoglalas :=
  { foglalas_id := gen k
    jaratszam := jarat.jaratszam
    indulo := jarat.indulo_repter
    celallomas := jarat.celallomas
    datum := jarat.datum
    utas_nev := utas_nev
    ar := jarat.jegyar
    statusz := "Aktív" }

/-- State of the `RepuloJegyFoglalasiRendszer` object
(src/main.py lines 130-135). -/
structure RepuloJegyFoglalasiRendszer where
  legitarsasag : Option Legitarsasag
  foglalasok : List JegyFoglalas
  existing_foglalas_ids : Finset String
deriving DecidableEq, Inhabited

/-- `RepuloJegyFoglalasiRendszer.__init__` (src/main.py lines 132-135). -/
def uresRendszer : RepuloJegyFoglalasiRendszer :=
  { legitarsasag := none, foglalasok := [], existing_foglalas_ids := ∅ }

/-- The flights currently held by the system's airline (empty when no
airline is set). -/
def jaratokOf (r : RepuloJegyFoglalasiRendszer) : List Jarat :=
  match r.legitarsasag with
  | none => []
  | some l => l.jaratok

/-- `RepuloJegyFoglalasiRendszer._init_test_adatok` (src/main.py lines
137-167): replaces the airline by a fresh one, adds the three demo flights,
appends six demo bookings (drawn from the id oracle at counters 0..5 with
no collision check) and then records every booking's id in
`existing_foglalas_ids`.  `now` is the construction time of the demo
flights.  The `Except` propagates the `ValueError` of `jarat_hozzaadasa`
(never triggered: the three demo flight numbers are distinct). -/
def init_test_adatok (r : RepuloJegyFoglalasiRendszer) (gen : Nat → String) (now : Int) :
    Except String RepuloJegyFoglalasiRendszer := do
  let legi0 : Legitarsasag := { nev := "Wizz Air Hungary", jaratok := [] }
  let legi1 ← legi0.jarat_hozzaadasa
    (BelfoldiJarat.init "WIZ001" "Budapest" "Debrecen" 15000 "Wizz Air" 20230101 now)
  let legi2 ← legi1.jarat_hozzaadasa
    (BelfoldiJarat.init "WIZ102" "Budapest" "Szeged" 20000 "Wizz Air" 20250610 now)
  let legi3 ← legi2.jarat_hozzaadasa
    (NemzetkoziJarat.init "WIZ201" "Budapest" "London" 50000 "Wizz Air" 20250615 now)
  let jaratok := legi3.jaratok
  let foglalasok := r.foglalasok ++
    [JegyFoglalas.init gen 0 (jaratok.getD 1 default) "Nagy János",
     JegyFoglalas.init gen 1 (jaratok.getD 1 default) "Kovács Béla",
     JegyFoglalas.init gen 2 (jaratok.getD 2 default) "Szabó Éva",
     JegyFoglalas.init gen 3 (jaratok.getD 2 default) "Kiss Zoltán",
     JegyFoglalas.init gen 4 (jaratok.getD 2 default) "Tóth Mária",
     JegyFoglalas.init gen 5 (jaratok.getD 2 default) "Horváth Péter"]
  let ids := foglalasok.foldl (fun halmaz f => insert f.foglalas_id halmaz)
    r.existing_foglalas_ids
  return { legitarsasag := some legi3, foglalasok := foglalasok,
           existing_foglalas_ids := ids }

/-- Outcome of `jegy_foglalas`, one constructor per `print`-and-return path
of src/main.py lines 169-223. -/
inductive FoglalasEredmeny where
  | nincsJarat
  | nincsAktivJarat
  | ervenytelenValasztas
  | ervenytelenBemenet
  | marElmult
  | rovidNev
  | siker (foglalas_id : String) (ar : ℚ)
  | elakadt
deriving DecidableEq, Inhabited

/-- The `while foglalas.foglalas_id in self.existing_foglalas_ids` loop of
src/main.py lines 207-211: keep constructing `JegyFoglalas` objects (each
consuming one oracle draw) until the id avoids `used`.  `fuel` bounds the
number of constructions; `none` models the (probability-zero) diverging
run. -/
def foglalasKereses (gen : Nat → String) (jarat : Jarat) (utas_nev : String)
    (used : Finset String) : Nat → Nat → Option (JegyFoglalas × Nat)
  | 0, _ => none
  | fuel + 1, k =>
    let foglalas := JegyFoglalas.init gen k jarat utas_nev
    if foglalas.foglalas_id ∈ used then
      foglalasKereses gen jarat utas_nev used fuel (k + 1)
    else
      some (foglalas, k + 1)

/-- `RepuloJegyFoglalasiRendszer.jegy_foglalas` (src/main.py lines 169-223).
`valasztas` is `int(input())` (`none` = `ValueError`), `utas_nev_input` the
raw passenger-name input, `now` the value of `datetime.now()` at the date
re-check, `k` the oracle counter and `fuel` the regeneration bound.
Returns the outcome, the new system state and the new oracle counter. -/
def jegy_foglalas (r : RepuloJegyFoglalasiRendszer) (gen : Nat → String) (k : Nat) (fuel : Nat)
    (valasztas : Option Int) (utas_nev_input : String) (now : Int) :
    FoglalasEredmeny × RepuloJegyFoglalasiRendszer × Nat :=
  match r.legitarsasag with
  | none => (.nincsJarat, r, k)
  | some legi =>
    if legi.jaratok.isEmpty then (.nincsJarat, r, k)
    else
      let aktiv_jaratok := legi.jaratok.filter fun j => j.statusz == JaratStatusz.AKTIV
      if aktiv_jaratok.isEmpty then (.nincsAktivJarat, r, k)
      else
        match valasztas with
        | none => (.ervenytelenBemenet, r, k)
        | some v =>
          if v < 1 ∨ v > (aktiv_jaratok.length : Int) then (.ervenytelenValasztas, r, k)
          else
            let kivalasztott_jarat := aktiv_jaratok.getD (v - 1).toNat default
            if kivalasztott_jarat.datum < now then (.marElmult, r, k)
            else
              let utas_nev := pyStrip utas_nev_input
              if utas_nev.length < 2 then (.rovidNev, r, k)
              else
                match foglalasKereses gen kivalasztott_jarat utas_nev
                    r.existing_foglalas_ids fuel k with
                | none => (.elakadt, r, k)
                | some (foglalas, k2) =>
                  (.siker foglalas.foglalas_id foglalas.ar,
                   { r with
                     existing_foglalas_ids := insert foglalas.foglalas_id r.existing_foglalas_ids,
                     foglalasok := r.foglalasok ++ [foglalas] },
                   k2)

/-- Outcome of `foglalas_lemondasa`, one constructor per `print`-and-return
path of src/main.py lines 225-249. -/
inductive LemondasEredmeny where
  | nincsFoglalas
  | lemondva (visszaterites : ℚ)
  | megszakitva
  | nemTalalhato
deriving DecidableEq, Inhabited

/-- The `for i, foglalas in enumerate(self.foglalasok)` loop of src/main.py
lines 233-247: find the first booking whose id matches and whose status is
`"Aktív"`; on confirmation `"i"` flip its status to `"Lemondva"` and report
the 70% refund, otherwise leave it untouched. -/
def lemondasKereses (foglalas_id megerosites : String) :
    List JegyFoglalas → LemondasEredmeny × List JegyFoglalas
  | [] => (.nemTalalhato, [])
  | foglalas :: tobbi =>
    if foglalas.foglalas_id == foglalas_id && foglalas.statusz == "Aktív" then
      if megerosites == "i" then
        (.lemondva (foglalas.ar * (0.7 : ℚ)), { foglalas with statusz := "Lemondva" } :: tobbi)
      else
        (.megszakitva, foglalas :: tobbi)
    else
      let p := lemondasKereses foglalas_id megerosites tobbi
      (p.1, foglalas :: p.2)

/-- `RepuloJegyFoglalasiRendszer.foglalas_lemondasa` (src/main.py lines
225-249).  The entered id is stripped and uppercased, the confirmation
answer stripped and lowercased (the source reads it only after a match is
found; it is only consulted there, so passing it as a parameter is
behaviourally identical). -/
def foglalas_lemondasa (r : RepuloJegyFoglalasiRendszer)
    (foglalas_id_input megerosites_input : String) :
    LemondasEredmeny × RepuloJegyFoglalasiRendszer :=
  if r.foglalasok.isEmpty then (.nincsFoglalas, r)
  else
    let foglalas_id := pyUpper (pyStrip foglalas_id_input)
    let megerosites := pyLower (pyStrip megerosites_input)
    let p := lemondasKereses foglalas_id megerosites r.foglalasok
    (p.1, { r with foglalasok := p.2 })

/-- Outcome of `uj_jarat_hozzaadasa`, one constructor per
`print`-and-return path of src/main.py lines 282-327. -/
inductive UjJaratEredmeny where
  | nincsLegitarsasag
  | ervenytelenArFormatum
  | nemPozitivAr
  | ervenytelenDatum
  | ervenytelenTipus
  | hiba (uzenet : String)
  | siker (jarat : Jarat)
deriving DecidableEq, Inhabited

/-- Attach a freshly constructed flight via `Legitarsasag.jarat_hozzaadasa`
(src/main.py line 321); the `ValueError` of a duplicate number is caught
and reported (line 324-325) with no state change. -/
def ujJaratHozzafuzes (r : RepuloJegyFoglalasiRendszer) (uj_jarat : Jarat) :
    UjJaratEredmeny × RepuloJegyFoglalasiRendszer :=
  match r.legitarsasag with
  | none => (.nincsLegitarsasag, r)
  | some legi =>
    match legi.jarat_hozzaadasa uj_jarat with
    | .error uzenet => (.hiba uzenet, r)
    | .ok legi2 => (.siker uj_jarat, { r with legitarsasag := some legi2 })

/-- `RepuloJegyFoglalasiRendszer.uj_jarat_hozzaadasa` (src/main.py lines
282-327).  `ar_input` is `float(input())` (`none` = `ValueError`),
`datum_input` is `datetime.strptime(..., "%Y-%m-%d")` (`none` =
`ValueError`), `now` the construction time of the new flight.  The flight
number is stripped and uppercased (line 289) before everything else. -/
def uj_jarat_hozzaadasa (r : RepuloJegyFoglalasiRendszer)
    (jaratszam_input indulo_input cel_input : String) (ar_input : Option ℚ)
    (legitarsasag_input : String) (datum_input : Option Int) (tipus_input : String)
    (now : Int) : UjJaratEredmeny × RepuloJegyFoglalasiRendszer :=
  match r.legitarsasag with
  | none => (.nincsLegitarsasag, r)
  | some _ =>
    let jaratszam := pyUpper (pyStrip jaratszam_input)
    let indulo := pyStrip indulo_input
    let cel := pyStrip cel_input
    match ar_input with
    | none => (.ervenytelenArFormatum, r)
    | some ar =>
      if ar ≤ 0 then (.nemPozitivAr, r)
      else
        let legitarsasag := pyStrip legitarsasag_input
        match datum_input with
        | none => (.ervenytelenDatum, r)
        | some datum =>
          let tipus := pyStrip tipus_input
          if tipus == "1" then
            ujJaratHozzafuzes r (BelfoldiJarat.init jaratszam indulo cel ar legitarsasag datum now)
          else if tipus == "2" then
            ujJaratHozzafuzes r (NemzetkoziJarat.init jaratszam indulo cel ar legitarsasag datum now)
          else (.ervenytelenTipus, r)

/-- Counts reported by `RepuloJegyFoglalasiRendszer.rendszer_allapota`
(src/main.py lines 329-353). -/
structure RendszerAllapot where
  legitarsasagNev : Option String
  jaratokSzama : Nat
  aktivJaratok : Nat
  belfoldiJaratok : Nat
  nemzetkoziJaratok : Nat
  foglalasokSzama : Nat
  aktivFoglalasok : Nat
  lemondottFoglalasok : Nat
deriving DecidableEq, Repr

/-- `RepuloJegyFoglalasiRendszer.rendszer_allapota` (src/main.py lines
329-353); the `isinstance` counts are the counts of the `tipus` tag.  When
no airline is set, the source prints no flight counts; this is embedded as
`none` / zero counts. -/
def rendszer_allapota (r : RepuloJegyFoglalasiRendszer) : RendszerAllapot :=
  let foglalasokSzama := r.foglalasok.length
  let aktivFoglalasok := (r.foglalasok.filter fun f => f.statusz == "Aktív").length
  let lemondottFoglalasok := (r.foglalasok.filter fun f => f.statusz == "Lemondva").length
  match r.legitarsasag with
  | some l =>
    { legitarsasagNev := some l.nev
      jaratokSzama := l.jaratok.length
      aktivJaratok := (l.jaratok.filter fun j => j.statusz == JaratStatusz.AKTIV).length
      belfoldiJaratok := (l.jaratok.filter fun j => j.tipus == JaratTipus.belfoldi).length
      nemzetkoziJaratok := (l.jaratok.filter fun j => j.tipus == JaratTipus.nemzetkozi).length
      foglalasokSzama := foglalasokSzama
      aktivFoglalasok := aktivFoglalasok
      lemondottFoglalasok := lemondottFoglalasok }
  | none =>
    { legitarsasagNev := none
      jaratokSzama := 0
      aktivJaratok := 0
      belfoldiJaratok := 0
      nemzetkoziJaratok := 0
      foglalasokSzama := foglalasokSzama
      aktivFoglalasok := aktivFoglalasok
      lemondottFoglalasok := lemondottFoglalasok }

/-- A string with no (ASCII) lowercase letter, as produced by `.upper()`. -/
def nincsKisbetu (s : String) : Prop := ∀ c ∈ s.data, c.isLower = false

/-- The identifiers of the bookings currently in the system, in order. -/
def foglalasIdk (r : RepuloJegyFoglalasiRendszer) : List String :=
  r.foglalasok.map fun f => f.foglalas_id

/-- Id-bookkeeping invariant of the system: every stored booking's id is
recorded in `existing_foglalas_ids`, and the stored ids are pairwise
distinct. -/
def idInvarians (r : RepuloJegyFoglalasiRendszer) : Prop :=
  (∀ f ∈ r.foglalasok, f.foglalas_id ∈ r.existing_foglalas_ids) ∧ (foglalasIdk r).Nodup

-- Concrete data used by witnesses and counterexamples.

/-- A deterministic id oracle producing six pairwise distinct identifiers. -/
def hatKulonbozoGen : Nat → String :=
  fun k => ["AA111", "BB222", "CC333", "DD444", "EE555", "FF666"].getD k "ZZ999"

/-- An adversarial id oracle: every draw yields the same identifier (a run
of the real generator produces this with positive probability). -/
def allandoGen : Nat → String := fun _ => "AA000"

/-- The demo state seeded at time 2024-01-01 with six distinct ids. -/
def seedJoState : RepuloJegyFoglalasiRendszer :=
  match init_test_adatok uresRendszer hatKulonbozoGen 20240101 with
  | .ok s => s
  | .error _ => uresRendszer

/-- The demo state seeded at time 2026-10-12 (after the demo flight dates). -/
def seedKesoState : RepuloJegyFoglalasiRendszer :=
  match init_test_adatok uresRendszer hatKulonbozoGen 20261012 with
  | .ok s => s
  | .error _ => uresRendszer

/-- The demo state seeded at time 2024-01-01 under the adversarial oracle:
all six bookings receive the id "AA000". -/
def seedUtkozoState : RepuloJegyFoglalasiRendszer :=
  match init_test_adatok uresRendszer allandoGen 20240101 with
  | .ok s => s
  | .error _ => uresRendszer

/-- One cancellation step viewed per booking: a booking's status is either
untouched or flipped from `"Aktív"` to `"Lemondva"`. -/
def statuszAtmenet (uj regi : JegyFoglalas) : Prop :=
  uj.statusz = regi.statusz ∨ (regi.statusz = "Aktív" ∧ uj.statusz = "Lemondva")

/-- A test flight dated 5, constructed at time 0 (hence active), with a
price of 80. -/
def jaratMa : Jarat := Jarat.init .belfoldi 2 "AB1" "Budapest" "Szeged" 80 "Wizz Air" 5 0

/-- A test airline holding only `jaratMa`. -/
def legiMa : Legitarsasag := { nev := "Wizz Air Hungary", jaratok := [jaratMa] }

/-- A test flight sharing `jaratMa`'s flight number. -/
def jaratUj : Jarat := NemzetkoziJarat.init "AB1" "Prága" "Bécs" 20 "Wizz Air" 9 0

/-- A test system holding `legiMa` and no bookings. -/
def rendszerMa : RepuloJegyFoglalasiRendszer :=
  { legitarsasag := some legiMa, foglalasok := [], existing_foglalas_ids := ∅ }

/-- A test booking of `jaratMa` (id "AA111", price 80, active). -/
def foglalasPelda : JegyFoglalas := JegyFoglalas.init hatKulonbozoGen 0 jaratMa "Kiss Pista"

/-- A test system holding `legiMa` and the single booking `foglalasPelda`. -/
def rendszerFoglalassal : RepuloJegyFoglalasiRendszer :=
  { legitarsasag := some legiMa, foglalasok := [foglalasPelda],
    existing_foglalas_ids := {"AA111"} }

/-- First cancellation of id "AA000" (confirmed) on the collided demo
state. -/
def elsoLemondas : LemondasEredmeny × RepuloJegyFoglalasiRendszer :=
  foglalas_lemondasa seedUtkozoState "AA000" "i"

/-- Second cancellation of the same id (confirmed) on the state left by the
first one. -/
def masodikLemondas : LemondasEredmeny × RepuloJegyFoglalasiRendszer :=
  foglalas_lemondasa elsoLemondas.2 "AA000" "i"

example : (seedJoState.foglalasok.map fun f => f.foglalas_id) =
    ["AA111", "BB222", "CC333", "DD444", "EE555", "FF666"] := by decide

example : rendszer_allapota seedKesoState =
    ⟨some "Wizz Air Hungary", 3, 0, 2, 1, 6, 6, 0⟩ := by decide

-- Helper lemmas.

/-- ASCII uppercasing never yields a lowercase letter. -/
theorem toUpper_isLower_false (c : Char) : (Char.toUpper c).isLower = false := by
  simp only [Char.toUpper]
  by_cases h : c.toNat ≥ 97 ∧ c.toNat ≤ 122
  · rw [if_pos h]
    obtain ⟨h1, h2⟩ := h
    generalize c.toNat = n at h1 h2
    interval_cases n <;> decide
  · rw [if_neg h]
    simp only [Char.isLower, Bool.and_eq_false_iff, decide_eq_false_iff_not]
    rcases Decidable.not_and_iff_or_not.mp h with h1 | h1
    · exact Or.inl fun hle => h1 hle
    · exact Or.inr fun hle => h1 hle

/-- The result of `pyUpper` contains no lowercase letter. -/
theorem pyUpper_nincsKisbetu (s : String) : nincsKisbetu (pyUpper s) := by
  intro c hc
  have hc2 : c ∈ s.data.map Char.toUpper := hc
  rw [List.mem_map] at hc2
  obtain ⟨d, _, rfl⟩ := hc2
  exact toUpper_isLower_false d

/-- A booking delivered by the regeneration loop has an identifier outside
the used-id set and starts out active. -/
theorem foglalasKereses_eredmeny (gen : Nat → String) (jarat : Jarat) (utas_nev : String)
    (used : Finset String) :
    ∀ fuel k foglalas k2,
      foglalasKereses gen jarat utas_nev used fuel k = some (foglalas, k2) →
      foglalas.foglalas_id ∉ used ∧ foglalas.statusz = "Aktív" := by
  intro fuel
  induction fuel with
  | zero => intro k f k2 h; simp [foglalasKereses] at h
  | succ n ih =>
    intro k f k2 h
    simp only [foglalasKereses] at h
    split at h
    · exact ih (k + 1) f k2 h
    · rename_i hni
      simp only [Option.some.injEq, Prod.mk.injEq] at h
      obtain ⟨rfl, rfl⟩ := h
      exact ⟨hni, rfl⟩

/-- When no booking matches (by id and active status), the cancellation
scan reports not-found and rebuilds the list unchanged. -/
theorem lemondasKereses_nincs (fid meg : String) :
    ∀ l : List JegyFoglalas,
      (∀ g ∈ l, g.foglalas_id ≠ fid ∨ g.statusz ≠ "Aktív") →
      lemondasKereses fid meg l = (.nemTalalhato, l) := by
  intro l
  induction l with
  | nil => intro _; rfl
  | cons f t ih =>
    intro h
    have hf := h f (List.mem_cons_self f t)
    simp only [lemondasKereses]
    rw [if_neg]
    · rw [ih fun g hg => h g (List.mem_cons_of_mem f hg)]
    · simp only [Bool.and_eq_true, beq_iff_eq]
      intro ⟨h1, h2⟩
      rcases hf with h3 | h3 <;> exact h3 (by assumption)

/-- If the confirmation answer is not `"i"`, the cancellation scan never
modifies the booking list, and when a matching active booking exists it
reports the user abort. -/
theorem lemondasKereses_megszakitva (fid meg : String) (hmeg : meg ≠ "i") :
    ∀ l : List JegyFoglalas,
      (lemondasKereses fid meg l).2 = l ∧
      ((∃ g ∈ l, g.foglalas_id = fid ∧ g.statusz = "Aktív") →
        (lemondasKereses fid meg l).1 = .megszakitva) := by
  intro l
  induction l with
  | nil => exact ⟨rfl, by simp⟩
  | cons f t ih =>
    simp only [lemondasKereses]
    split
    · rw [if_neg (by simpa using hmeg)]
      exact ⟨rfl, fun _ => rfl⟩
    · rename_i hnm
      refine ⟨by simp [ih.1], ?_⟩
      intro ⟨g, hg, hgid, hgakt⟩
      rcases List.mem_cons.mp hg with rfl | hgt
      · exact absurd (by simp [hgid, hgakt]) hnm
      · exact ih.2 ⟨g, hgt, hgid, hgakt⟩

/-- Per-booking effect of the cancellation scan: each booking is untouched
or flipped from active to cancelled, position by position. -/
theorem lemondasKereses_statuszok (fid meg : String) :
    ∀ l : List JegyFoglalas, List.Forall₂ statuszAtmenet (lemondasKereses fid meg l).2 l := by
  intro l
  induction l with
  | nil => exact List.Forall₂.nil
  | cons f t ih =>
    simp only [lemondasKereses]
    split
    · rename_i hm
      simp only [Bool.and_eq_true, beq_iff_eq] at hm
      split
      · exact List.Forall₂.cons (Or.inr ⟨hm.2, rfl⟩) (List.forall₂_same.mpr fun _ _ => Or.inl rfl)
      · exact List.Forall₂.cons (Or.inl rfl) (List.forall₂_same.mpr fun _ _ => Or.inl rfl)
    · exact List.Forall₂.cons (Or.inl rfl) ih

/-- Accumulated membership is preserved by the id-recording fold of
`init_test_adatok`. -/
theorem mem_foldl_insert (x : String) :
    ∀ (l : List JegyFoglalas) (acc : Finset String), x ∈ acc →
      x ∈ l.foldl (fun halmaz f => insert f.foglalas_id halmaz) acc := by
  intro l
  induction l with
  | nil => intro acc h; exact h
  | cons f t ih =>
    intro acc h
    exact ih (insert f.foglalas_id acc) (Finset.mem_insert_of_mem h)

/-- Every booking of the list has its id in the result of the id-recording
fold of `init_test_adatok`. -/
theorem mem_foldl_insert_self :
    ∀ (l : List JegyFoglalas) (acc : Finset String) (f : JegyFoglalas), f ∈ l →
      f.foglalas_id ∈ l.foldl (fun halmaz g => insert g.foglalas_id halmaz) acc := by
  intro l
  induction l with
  | nil => intro acc f h; cases h
  | cons g t ih =>
    intro acc f h
    rcases List.mem_cons.mp h with rfl | ht
    · exact mem_foldl_insert _ t _ (Finset.mem_insert_self _ _)
    · exact ih _ f ht

/-- The duplicate branch of `ujJaratHozzafuzes`: the `ValueError` is caught
and the state returned unchanged. -/
theorem ujJaratHozzafuzes_hiba (r : RepuloJegyFoglalasiRendszer) (legi : Legitarsasag)
    (uj : Jarat) (hleg : r.legitarsasag = some legi)
    (hdup : (legi.jaratok.any fun j => j.jaratszam == uj.jaratszam) = true) :
    ujJaratHozzafuzes r uj =
      (.hiba ("A " ++ uj.jaratszam ++ " járatszám már létezik!"), r) := by
  simp [ujJaratHozzafuzes, hleg, Legitarsasag.jarat_hozzaadasa, hdup]

/-- The success branch of `ujJaratHozzafuzes`: the flight is appended at the
end of the airline's list. -/
theorem ujJaratHozzafuzes_siker (r : RepuloJegyFoglalasiRendszer) (legi : Legitarsasag)
    (uj : Jarat) (hleg : r.legitarsasag = some legi)
    (hdup : (legi.jaratok.any fun j => j.jaratszam == uj.jaratszam) = false) :
    ujJaratHozzafuzes r uj =
      (.siker uj,
       { r with legitarsasag := some { nev := legi.nev, jaratok := legi.jaratok ++ [uj] } }) := by
  simp [ujJaratHozzafuzes, hleg, Legitarsasag.jarat_hozzaadasa, hdup]

/-- Case analysis of `uj_jarat_hozzaadasa`: either the operation leaves the
system untouched (and does not report success), or the airline was present
and gains exactly one flight, appended at the end, whose number is the
stripped-and-uppercased input. -/
theorem uj_jarat_hozzaadasa_esetek (r : RepuloJegyFoglalasiRendszer)
    (n i c : String) (arOpt : Option ℚ) (lg : String) (dOpt : Option Int) (t : String)
    (now : Int) :
    ((uj_jarat_hozzaadasa r n i c arOpt lg dOpt t now).2 = r ∧
      ∀ uj, (uj_jarat_hozzaadasa r n i c arOpt lg dOpt t now).1 ≠ UjJaratEredmeny.siker uj) ∨
    (∃ legi uj, r.legitarsasag = some legi ∧ uj.jaratszam = pyUpper (pyStrip n) ∧
      uj_jarat_hozzaadasa r n i c arOpt lg dOpt t now =
        (UjJaratEredmeny.siker uj,
         { r with legitarsasag := some { nev := legi.nev, jaratok := legi.jaratok ++ [uj] } })) := by
  rcases hleg : r.legitarsasag with _ | legi
  · have hop : uj_jarat_hozzaadasa r n i c arOpt lg dOpt t now = (.nincsLegitarsasag, r) := by
      simp [uj_jarat_hozzaadasa, hleg]
    exact Or.inl ⟨by rw [hop], fun uj h => by rw [hop] at h; cases h⟩
  · rcases arOpt with _ | ar
    · have hop : uj_jarat_hozzaadasa r n i c none lg dOpt t now = (.ervenytelenArFormatum, r) := by
        simp [uj_jarat_hozzaadasa, hleg]
      exact Or.inl ⟨by rw [hop], fun uj h => by rw [hop] at h; cases h⟩
    · by_cases har : ar ≤ 0
      · have hop : uj_jarat_hozzaadasa r n i c (some ar) lg dOpt t now = (.nemPozitivAr, r) := by
          simp [uj_jarat_hozzaadasa, hleg, har]
        exact Or.inl ⟨by rw [hop], fun uj h => by rw [hop] at h; cases h⟩
      · rcases dOpt with _ | d
        · have hop : uj_jarat_hozzaadasa r n i c (some ar) lg none t now =
              (.ervenytelenDatum, r) := by
            simp [uj_jarat_hozzaadasa, hleg, har]
          exact Or.inl ⟨by rw [hop], fun uj h => by rw [hop] at h; cases h⟩
        · by_cases ht1 : (pyStrip t == "1") = true
          · have hop : uj_jarat_hozzaadasa r n i c (some ar) lg (some d) t now =
                ujJaratHozzafuzes r
                  (BelfoldiJarat.init (pyUpper (pyStrip n)) (pyStrip i) (pyStrip c) ar
                    (pyStrip lg) d now) := by
              simp [uj_jarat_hozzaadasa, hleg, har, ht1]
            by_cases hdup : (legi.jaratok.any fun j => j.jaratszam ==
                (BelfoldiJarat.init (pyUpper (pyStrip n)) (pyStrip i) (pyStrip c) ar
                  (pyStrip lg) d now).jaratszam) = true
            · rw [hop, ujJaratHozzafuzes_hiba r legi _ hleg hdup]
              exact Or.inl ⟨rfl, fun uj h => by cases h⟩
            · rw [hop, ujJaratHozzafuzes_siker r legi _ hleg (by simpa using hdup)]
              exact Or.inr ⟨legi, _, rfl, rfl, rfl⟩
          · by_cases ht2 : (pyStrip t == "2") = true
            · have hop : uj_jarat_hozzaadasa r n i c (some ar) lg (some d) t now =
                  ujJaratHozzafuzes r
                    (NemzetkoziJarat.init (pyUpper (pyStrip n)) (pyStrip i) (pyStrip c) ar
                      (pyStrip lg) d now) := by
                simp [uj_jarat_hozzaadasa, hleg, har, ht1, ht2]
              by_cases hdup : (legi.jaratok.any fun j => j.jaratszam ==
                  (NemzetkoziJarat.init (pyUpper (pyStrip n)) (pyStrip i) (pyStrip c) ar
                    (pyStrip lg) d now).jaratszam) = true
              · rw [hop, ujJaratHozzafuzes_hiba r legi _ hleg hdup]
                exact Or.inl ⟨rfl, fun uj h => by cases h⟩
              · rw [hop, ujJaratHozzafuzes_siker r legi _ hleg (by simpa using hdup)]
                exact Or.inr ⟨legi, _, rfl, rfl, rfl⟩
            · have hop : uj_jarat_hozzaadasa r n i c (some ar) lg (some d) t now =
                  (.ervenytelenTipus, r) := by
                simp [uj_jarat_hozzaadasa, hleg, har, ht1, ht2]
              exact Or.inl ⟨by rw [hop], fun uj h => by rw [hop] at h; cases h⟩


/-- Case analysis of `jegy_foglalas`: either the system and the oracle
counter are untouched and no success is reported, or the passenger name was
long enough and a booking with a fresh identifier and active status is
appended and its id recorded. -/
theorem jegy_foglalas_esetek (r : RepuloJegyFoglalasiRendszer) (gen : Nat → String)
    (k fuel : Nat) (v : Option Int) (nev : String) (now : Int) :
    ((jegy_foglalas r gen k fuel v nev now).2 = (r, k) ∧
      ∀ id ar, (jegy_foglalas r gen k fuel v nev now).1 ≠ FoglalasEredmeny.siker id ar) ∨
    (∃ foglalas k2,
      foglalas.foglalas_id ∉ r.existing_foglalas_ids ∧ foglalas.statusz = "Aktív" ∧
      2 ≤ (pyStrip nev).length ∧
      jegy_foglalas r gen k fuel v nev now =
        (FoglalasEredmeny.siker foglalas.foglalas_id foglalas.ar,
         { r with
           existing_foglalas_ids := insert foglalas.foglalas_id r.existing_foglalas_ids,
           foglalasok := r.foglalasok ++ [foglalas] },
         k2)) := by
  rcases hleg : r.legitarsasag with _ | legi
  · left
    simp only [jegy_foglalas, hleg]
    exact ⟨by trivial, fun id ar hh => by cases hh⟩
  · simp only [jegy_foglalas, hleg]
    split
    · exact Or.inl ⟨by trivial, fun id ar hh => by cases hh⟩
    · split
      · exact Or.inl ⟨by trivial, fun id ar hh => by cases hh⟩
      · rcases v with _ | v
        · exact Or.inl ⟨by trivial, fun id ar hh => by cases hh⟩
        · simp only
          split
          · exact Or.inl ⟨by trivial, fun id ar hh => by cases hh⟩
          · split
            · exact Or.inl ⟨by trivial, fun id ar hh => by cases hh⟩
            · split
              · exact Or.inl ⟨by trivial, fun id ar hh => by cases hh⟩
              · rename_i hnev
                rcases hf : foglalasKereses gen
                    ((legi.jaratok.filter fun j => j.statusz == JaratStatusz.AKTIV).getD
                      (v - 1).toNat default)
                    (pyStrip nev) r.existing_foglalas_ids fuel k with _ | ⟨f, k2⟩
                · refine Or.inl ?_
                  simp only [hf]
                  exact ⟨by trivial, fun id ar hh => by cases hh⟩
                · have := foglalasKereses_eredmeny gen _ _ _ fuel k f k2 hf
                  exact Or.inr ⟨f, k2, this.1, this.2, by omega, by simp only [hf]⟩

/-- When the first active booking matching the id sits after a non-matching
prefix, a confirmed cancellation flips exactly that booking's status and
reports the 70% refund. -/
theorem lemondasKereses_talalat (fid : String) :
    ∀ (elotte : List JegyFoglalas) (f : JegyFoglalas) (utana : List JegyFoglalas),
      (∀ g ∈ elotte, g.foglalas_id ≠ fid ∨ g.statusz ≠ "Aktív") →
      f.foglalas_id = fid → f.statusz = "Aktív" →
      lemondasKereses fid "i" (elotte ++ f :: utana) =
        (.lemondva (f.ar * (0.7 : ℚ)), elotte ++ { f with statusz := "Lemondva" } :: utana) := by
  intro elotte
  induction elotte with
  | nil =>
    intro f utana _ hfid hfakt
    simp only [List.nil_append, lemondasKereses]
    rw [if_pos (by simp [hfid, hfakt]), if_pos (by simp)]
  | cons g t ih =>
    intro f utana h hfid hfakt
    have hg := h g (List.mem_cons_self g t)
    simp only [List.cons_append, lemondasKereses]
    rw [if_neg]
    · simp only [List.append_eq]
      rw [ih f utana (fun x hx => h x (List.mem_cons_of_mem g hx)) hfid hfakt]
    · simp only [Bool.and_eq_true, beq_iff_eq]
      intro ⟨h1, h2⟩
      rcases hg with h3 | h3 <;> exact h3 (by assumption)

/-- C9: for every positive base price, a `BelfoldiJarat` (domestic flight)
stores exactly 0.8 times the base price and a `NemzetkoziJarat`
(international flight) exactly 1.3 times the base price. -/
theorem C9_jarat_arszorzok (jaratszam indulo cel : String) (ar : ℚ) (legi : String)
    (datum now : Int) (h : 0 < ar) :
    (BelfoldiJarat.init jaratszam indulo cel ar legi datum now).jegyar = (0.8 : ℚ) * ar ∧
    (NemzetkoziJarat.init jaratszam indulo cel ar legi datum now).jegyar = (1.3 : ℚ) * ar :=
  ⟨mul_comm ar _, mul_comm ar _⟩

/-- Witness for C9 at base price 1. -/
theorem C9_jarat_arszorzok_peldany :
    (0 : ℚ) < 1 ∧
    (BelfoldiJarat.init "AB1" "X" "Y" 1 "L" 5 0).jegyar = (0.8 : ℚ) * 1 ∧
    (NemzetkoziJarat.init "AB1" "X" "Y" 1 "L" 5 0).jegyar = (1.3 : ℚ) * 1 :=
  ⟨one_pos, C9_jarat_arszorzok "AB1" "X" "Y" 1 "L" 5 0 one_pos⟩

/-- C5: `jarat_hozzaadasa` fails with the duplicate-flight-number error and
adds nothing when some stored flight shares the number, and otherwise
appends the new flight at the end, keeping all earlier flights in order. -/
theorem C5_jarat_hozzaadasa_helyesseg (l : Legitarsasag) (jarat : Jarat) :
    ((∃ j ∈ l.jaratok, j.jaratszam = jarat.jaratszam) →
      l.jarat_hozzaadasa jarat =
        .error ("A " ++ jarat.jaratszam ++ " járatszám már létezik!")) ∧
    ((∀ j ∈ l.jaratok, j.jaratszam ≠ jarat.jaratszam) →
      l.jarat_hozzaadasa jarat = .ok { nev := l.nev, jaratok := l.jaratok ++ [jarat] }) := by
  constructor
  · intro ⟨j, hj, heq⟩
    have hany : (l.jaratok.any fun j => j.jaratszam == jarat.jaratszam) = true := by
      rw [List.any_eq_true]
      exact ⟨j, hj, by simpa using heq⟩
    simp [Legitarsasag.jarat_hozzaadasa, hany]
  · intro h
    have hany : (l.jaratok.any fun j => j.jaratszam == jarat.jaratszam) = false := by
      rw [List.any_eq_false]
      intro j hj
      simpa using h j hj
    simp [Legitarsasag.jarat_hozzaadasa, hany]

/-- Witness for C5: adding a flight whose number "AB1" is already stored is
rejected with the duplicate error. -/
theorem C5_jarat_hozzaadasa_peldany :
    legiMa.jarat_hozzaadasa jaratUj = .error "A AB1 járatszám már létezik!" :=
  (C5_jarat_hozzaadasa_helyesseg legiMa jaratUj).1
    ⟨jaratMa, List.mem_cons_self jaratMa [], rfl⟩

/-- C4: a flight's status is fixed at construction (`AKTÍV` exactly when the
date is strictly after the construction-time "now") and no system operation
ever changes a stored flight: booking and cancellation leave the airline
untouched, and adding a flight either leaves the system unchanged or
appends one new flight after the existing, unchanged ones. -/
theorem C4_jarat_statusz_rogzitett (tp : JaratTipus) (rep : Nat)
    (jaratszam indulo cel : String) (ar : ℚ) (lg : String) (datum now : Int)
    (r : RepuloJegyFoglalasiRendszer) (gen : Nat → String) (k fuel : Nat) (v : Option Int)
    (nev : String) (now2 : Int) (fid meg : String) (n i c : String) (arOpt : Option ℚ)
    (lg2 : String) (dOpt : Option Int) (t : String) (now3 : Int) :
    ((Jarat.init tp rep jaratszam indulo cel ar lg datum now).statusz =
      if datum > now then JaratStatusz.AKTIV else JaratStatusz.INAKTIV) ∧
    (jegy_foglalas r gen k fuel v nev now2).2.1.legitarsasag = r.legitarsasag ∧
    (foglalas_lemondasa r fid meg).2.legitarsasag = r.legitarsasag ∧
    ((uj_jarat_hozzaadasa r n i c arOpt lg2 dOpt t now3).2 = r ∨
      ∃ legi uj, r.legitarsasag = some legi ∧
        (uj_jarat_hozzaadasa r n i c arOpt lg2 dOpt t now3).2 =
          { r with legitarsasag := some { nev := legi.nev, jaratok := legi.jaratok ++ [uj] } }) := by
  refine ⟨rfl, ?_, ?_, ?_⟩
  · rcases jegy_foglalas_esetek r gen k fuel v nev now2 with ⟨h, _⟩ | ⟨f, k2, _, _, _, hop⟩
    · have h1 : (jegy_foglalas r gen k fuel v nev now2).2.1 = r := by rw [h]
      rw [h1]
    · rw [hop]
  · simp only [foglalas_lemondasa]
    split <;> rfl
  · rcases uj_jarat_hozzaadasa_esetek r n i c arOpt lg2 dOpt t now3 with ⟨h, _⟩ |
      ⟨legi, uj, hleg, _, hop⟩
    · exact Or.inl h
    · exact Or.inr ⟨legi, uj, hleg, by rw [hop]⟩

/-- C8: whenever the entered passenger name is shorter than 2 characters
after stripping, the booking operation leaves the system state and the id
oracle counter unchanged and never reports success. -/
theorem C8_rovid_utasnev (r : RepuloJegyFoglalasiRendszer) (gen : Nat → String)
    (k fuel : Nat) (v : Option Int) (nev : String) (now : Int)
    (h : (pyStrip nev).length < 2) :
    (jegy_foglalas r gen k fuel v nev now).2 = (r, k) ∧
    ∀ id ar, (jegy_foglalas r gen k fuel v nev now).1 ≠ .siker id ar := by
  rcases jegy_foglalas_esetek r gen k fuel v nev now with ⟨h1, h2⟩ | ⟨f, k2, _, _, hlen, _⟩
  · exact ⟨h1, h2⟩
  · omega

/-- Witness for C8: a one-letter passenger name (after stripping) leaves the
system untouched. -/
theorem C8_rovid_utasnev_peldany :
    (pyStrip " a ").length < 2 ∧
    (jegy_foglalas rendszerMa hatKulonbozoGen 0 1 (some 1) " a " 0).2 = (rendszerMa, 0) ∧
    ∀ id ar, (jegy_foglalas rendszerMa hatKulonbozoGen 0 1 (some 1) " a " 0).1 ≠
      .siker id ar :=
  ⟨by decide,
   (C8_rovid_utasnev rendszerMa hatKulonbozoGen 0 1 (some 1) " a " 0 (by decide)).1,
   (C8_rovid_utasnev rendszerMa hatKulonbozoGen 0 1 (some 1) " a " 0 (by decide)).2⟩

/-- On a non-empty booking list, `foglalas_lemondasa` is exactly the
cancellation scan applied to the stripped-and-uppercased id and the
stripped-and-lowercased confirmation. -/
theorem foglalas_lemondasa_nemures (r : RepuloJegyFoglalasiRendszer)
    (fid_in meg_in : String) (hne : r.foglalasok.isEmpty = false) :
    foglalas_lemondasa r fid_in meg_in =
      ((lemondasKereses (pyUpper (pyStrip fid_in)) (pyLower (pyStrip meg_in)) r.foglalasok).1,
       { r with foglalasok :=
          (lemondasKereses (pyUpper (pyStrip fid_in)) (pyLower (pyStrip meg_in))
            r.foglalasok).2 }) := by
  simp [foglalas_lemondasa, hne]

/-- C7: with a matching active booking present, declining the confirmation
aborts the cancellation with no state change at all, and confirming it
reports a refund of exactly 0.7 times the booking's stored price and flips
only that booking to `"Lemondva"`. -/
theorem C7_lemondas_megerosites (r : RepuloJegyFoglalasiRendszer)
    (elotte : List JegyFoglalas) (f : JegyFoglalas) (utana : List JegyFoglalas)
    (fid_in meg_in : String)
    (hsplit : r.foglalasok = elotte ++ f :: utana)
    (hfid : f.foglalas_id = pyUpper (pyStrip fid_in))
    (hfakt : f.statusz = "Aktív")
    (helotte : ∀ g ∈ elotte, g.foglalas_id ≠ pyUpper (pyStrip fid_in) ∨ g.statusz ≠ "Aktív") :
    (pyLower (pyStrip meg_in) ≠ "i" →
      foglalas_lemondasa r fid_in meg_in = (.megszakitva, r)) ∧
    (pyLower (pyStrip meg_in) = "i" →
      (foglalas_lemondasa r fid_in meg_in).1 = .lemondva ((0.7 : ℚ) * f.ar) ∧
      (foglalas_lemondasa r fid_in meg_in).2.foglalasok =
        elotte ++ { f with statusz := "Lemondva" } :: utana) := by
  have hne : r.foglalasok.isEmpty = false := by
    rw [hsplit]; cases elotte <;> rfl
  have hop := foglalas_lemondasa_nemures r fid_in meg_in hne
  constructor
  · intro hm
    have h1 := lemondasKereses_megszakitva (pyUpper (pyStrip fid_in))
      (pyLower (pyStrip meg_in)) hm r.foglalasok
    have hex : ∃ g ∈ r.foglalasok,
        g.foglalas_id = pyUpper (pyStrip fid_in) ∧ g.statusz = "Aktív" := by
      rw [hsplit]
      exact ⟨f, by simp, hfid, hfakt⟩
    rw [hop, h1.1, h1.2 hex]
  · intro hm
    have ht := lemondasKereses_talalat (pyUpper (pyStrip fid_in)) elotte f utana
      helotte hfid hfakt
    constructor
    · rw [hop]
      show (lemondasKereses _ _ r.foglalasok).1 = _
      rw [hm, hsplit, ht, mul_comm f.ar (0.7 : ℚ)]
    · rw [hop]
      show (lemondasKereses _ _ r.foglalasok).2 = _
      rw [hm, hsplit, ht]

/-- Witness for C7: declining ("N") the cancellation of booking "AA111"
leaves the system untouched. -/
theorem C7_lemondas_megerosites_peldany :
    foglalas_lemondasa rendszerFoglalassal " aa111 " "N" = (.megszakitva, rendszerFoglalassal) :=
  (C7_lemondas_megerosites rendszerFoglalassal [] foglalasPelda [] " aa111 " "N" rfl rfl rfl
    (by simp)).1 (by decide)

/-- C6 (amended): a confirmed cancellation of the first matching active
booking flips it to `"Lemondva"` and reports the 70% refund; provided the
stored booking ids are pairwise distinct, an immediately repeated
cancellation with the same id reports not-found and changes nothing; and no
cancellation ever turns a `"Lemondva"` booking back into an active one
(each booking is untouched or goes active-to-cancelled). -/
theorem C6_lemondas_egyszeri (r : RepuloJegyFoglalasiRendszer)
    (elotte : List JegyFoglalas) (f : JegyFoglalas) (utana : List JegyFoglalas)
    (fid_in meg_in : String)
    (hsplit : r.foglalasok = elotte ++ f :: utana)
    (hfid : f.foglalas_id = pyUpper (pyStrip fid_in))
    (hfakt : f.statusz = "Aktív")
    (helotte : ∀ g ∈ elotte, g.foglalas_id ≠ pyUpper (pyStrip fid_in) ∨ g.statusz ≠ "Aktív")
    (hmeg : pyLower (pyStrip meg_in) = "i")
    (hnodup : (foglalasIdk r).Nodup) :
    (foglalas_lemondasa r fid_in meg_in).1 = .lemondva (f.ar * (0.7 : ℚ)) ∧
    (foglalas_lemondasa r fid_in meg_in).2.foglalasok =
      elotte ++ { f with statusz := "Lemondva" } :: utana ∧
    foglalas_lemondasa (foglalas_lemondasa r fid_in meg_in).2 fid_in meg_in =
      (.nemTalalhato, (foglalas_lemondasa r fid_in meg_in).2) ∧
    ∀ (r2 : RepuloJegyFoglalasiRendszer) (a b : String),
      List.Forall₂ statuszAtmenet (foglalas_lemondasa r2 a b).2.foglalasok r2.foglalasok := by
  have hne : r.foglalasok.isEmpty = false := by
    rw [hsplit]; cases elotte <;> rfl
  have hop := foglalas_lemondasa_nemures r fid_in meg_in hne
  have ht := lemondasKereses_talalat (pyUpper (pyStrip fid_in)) elotte f utana
    helotte hfid hfakt
  have hfst : (foglalas_lemondasa r fid_in meg_in).1 = .lemondva (f.ar * (0.7 : ℚ)) := by
    rw [hop]
    show (lemondasKereses _ _ r.foglalasok).1 = _
    rw [hmeg, hsplit, ht]
  have hsnd : (foglalas_lemondasa r fid_in meg_in).2 =
      { r with foglalasok := elotte ++ { f with statusz := "Lemondva" } :: utana } := by
    rw [hop]
    show ({ r with foglalasok := (lemondasKereses _ _ r.foglalasok).2 } :
      RepuloJegyFoglalasiRendszer) = _
    rw [hmeg, hsplit, ht]
  have hnd : (elotte.map (fun g => g.foglalas_id) ++
      f.foglalas_id :: utana.map (fun g => g.foglalas_id)).Nodup := by
    rw [foglalasIdk, hsplit] at hnodup
    simpa using hnodup
  have h3 : f.foglalas_id ∉ utana.map (fun g => g.foglalas_id) :=
    (List.nodup_cons.mp (List.nodup_append.mp hnd).2.1).1
  refine ⟨hfst, by rw [hsnd], ?_, ?_⟩
  · have hne2 : ({ r with
        foglalasok := elotte ++ { f with statusz := "Lemondva" } :: utana } :
        RepuloJegyFoglalasiRendszer).foglalasok.isEmpty = false := by
      cases elotte <;> rfl
    have hop2 := foglalas_lemondasa_nemures
      { r with foglalasok := elotte ++ { f with statusz := "Lemondva" } :: utana }
      fid_in meg_in hne2
    have hnom : ∀ g ∈ elotte ++ { f with statusz := "Lemondva" } :: utana,
        g.foglalas_id ≠ pyUpper (pyStrip fid_in) ∨ g.statusz ≠ "Aktív" := by
      intro g hg
      rw [List.mem_append] at hg
      rcases hg with hg | hg
      · exact helotte g hg
      · rcases List.mem_cons.mp hg with rfl | hg
        · right; simp
        · left
          intro hgid
          have heq : f.foglalas_id = g.foglalas_id := hfid.trans hgid.symm
          exact h3 (heq ▸ List.mem_map_of_mem _ hg)
    have h2 := lemondasKereses_nincs (pyUpper (pyStrip fid_in)) (pyLower (pyStrip meg_in))
      (elotte ++ { f with statusz := "Lemondva" } :: utana) hnom
    rw [hsnd, hop2, h2]
  · intro r2 a b
    by_cases he : r2.foglalasok.isEmpty = true
    · have hq : foglalas_lemondasa r2 a b = (.nincsFoglalas, r2) := by
        simp [foglalas_lemondasa, he]
      rw [hq]
      exact List.forall₂_same.mpr fun _ _ => Or.inl rfl
    · rw [foglalas_lemondasa_nemures r2 a b (by simpa using he)]
      exact lemondasKereses_statuszok _ _ r2.foglalasok

/-- Witness for C6 at a single-booking system: confirmed cancellation of
"AA111", then a repeated attempt that reports not-found. -/
theorem C6_lemondas_egyszeri_peldany :
    (foglalas_lemondasa rendszerFoglalassal "aa111" "I").1 =
      .lemondva (foglalasPelda.ar * (0.7 : ℚ)) ∧
    (foglalas_lemondasa rendszerFoglalassal "aa111" "I").2.foglalasok =
      [] ++ { foglalasPelda with statusz := "Lemondva" } :: [] ∧
    foglalas_lemondasa (foglalas_lemondasa rendszerFoglalassal "aa111" "I").2 "aa111" "I" =
      (.nemTalalhato, (foglalas_lemondasa rendszerFoglalassal "aa111" "I").2) ∧
    ∀ (r2 : RepuloJegyFoglalasiRendszer) (a b : String),
      List.Forall₂ statuszAtmenet (foglalas_lemondasa r2 a b).2.foglalasok r2.foglalasok :=
  C6_lemondas_egyszeri rendszerFoglalassal [] foglalasPelda [] "aa111" "I" rfl rfl rfl
    (by simp) (by decide) (by decide)

/-- Counterexample for C6 as stated: on the reachable collided demo state
(six active bookings all carrying id "AA000"), a second confirmed
cancellation with the same id is not reported as not-found; it cancels a
further booking (a second refund), mutating the state again. -/
theorem C6_ketszeri_lemondas_ellenpelda :
    (seedUtkozoState.foglalasok.map fun f => f.statusz) =
      ["Aktív", "Aktív", "Aktív", "Aktív", "Aktív", "Aktív"] ∧
    (elsoLemondas.2.foglalasok.map fun f => f.statusz) =
      ["Lemondva", "Aktív", "Aktív", "Aktív", "Aktív", "Aktív"] ∧
    foglalasIdk seedUtkozoState =
      ["AA000", "AA000", "AA000", "AA000", "AA000", "AA000"] ∧
    masodikLemondas.1 ≠ LemondasEredmeny.nemTalalhato ∧
    (masodikLemondas.2.foglalasok.map fun f => f.statusz) =
      ["Lemondva", "Lemondva", "Aktív", "Aktív", "Aktív", "Aktív"] := by
  refine ⟨by decide, by decide, by decide, by decide, by decide⟩

/-- C2 (amended): for a valid selection of an active flight, the booking
operation fails with the already-departed outcome (and leaves the state and
the oracle counter untouched) exactly when the selected flight's date is
strictly before the current time at the re-check; a date equal to "now"
passes the re-check. -/
theorem C2_datum_ujraellenorzes (r : RepuloJegyFoglalasiRendszer) (legi : Legitarsasag)
    (gen : Nat → String) (k fuel : Nat) (v : Int) (nev : String) (now : Int)
    (hl : r.legitarsasag = some legi)
    (hv1 : 1 ≤ v)
    (hv2 : v ≤ ((legi.jaratok.filter fun j => j.statusz == JaratStatusz.AKTIV).length : Int)) :
    ((jegy_foglalas r gen k fuel (some v) nev now).1 = .marElmult ↔
      ((legi.jaratok.filter fun j => j.statusz == JaratStatusz.AKTIV).getD
        (v - 1).toNat default).datum < now) ∧
    (((legi.jaratok.filter fun j => j.statusz == JaratStatusz.AKTIV).getD
        (v - 1).toNat default).datum < now →
      jegy_foglalas r gen k fuel (some v) nev now = (.marElmult, r, k)) := by
  have hlen : 1 ≤ (legi.jaratok.filter fun j => j.statusz == JaratStatusz.AKTIV).length := by
    exact_mod_cast hv1.trans hv2
  have hfilne : (legi.jaratok.filter fun j => j.statusz == JaratStatusz.AKTIV) ≠ [] := by
    intro e
    rw [e] at hlen
    simp at hlen
  have haktiv : (legi.jaratok.filter fun j => j.statusz == JaratStatusz.AKTIV).isEmpty =
      false := by
    cases hfil : legi.jaratok.filter fun j => j.statusz == JaratStatusz.AKTIV with
    | nil => exact absurd hfil hfilne
    | cons a l => rfl
  have hjne : legi.jaratok.isEmpty = false := by
    cases hj : legi.jaratok with
    | nil => rw [hj] at hfilne; simp at hfilne
    | cons a l => rfl
  have hrange : ¬(v < 1 ∨
      v > ((legi.jaratok.filter fun j => j.statusz == JaratStatusz.AKTIV).length : Int)) :=
    not_or.mpr ⟨not_lt.mpr hv1, not_lt.mpr hv2⟩
  have hop : jegy_foglalas r gen k fuel (some v) nev now =
      (if ((legi.jaratok.filter fun j => j.statusz == JaratStatusz.AKTIV).getD
          (v - 1).toNat default).datum < now then (.marElmult, r, k)
       else if (pyStrip nev).length < 2 then (.rovidNev, r, k)
       else match foglalasKereses gen ((legi.jaratok.filter fun j =>
              j.statusz == JaratStatusz.AKTIV).getD (v - 1).toNat default)
              (pyStrip nev) r.existing_foglalas_ids fuel k with
            | none => (.elakadt, r, k)
            | some (foglalas, k2) =>
              (.siker foglalas.foglalas_id foglalas.ar,
               { r with
                 existing_foglalas_ids := insert foglalas.foglalas_id r.existing_foglalas_ids,
                 foglalasok := r.foglalasok ++ [foglalas] }, k2)) := by
    simp [jegy_foglalas, hl, hjne, haktiv, hrange]
  constructor
  · constructor
    · intro hq
      by_contra hd
      rw [hop, if_neg hd] at hq
      split at hq
      · exact absurd hq (by simp)
      · split at hq
        · exact absurd hq (by simp)
        · exact absurd hq (by simp)
    · intro hd
      rw [hop, if_pos hd]
  · intro hd
    rw [hop, if_pos hd]

/-- Counterexample for C2 as stated: with the selected flight's date exactly
equal to "now" at the re-check (both are 5), the booking is not rejected as
already departed; it succeeds and a booking is created. -/
theorem C2_datum_egyenlo_ellenpelda :
    jaratMa.datum = 5 ∧
    (jegy_foglalas rendszerMa hatKulonbozoGen 0 1 (some 1) "Kiss Pista" 5).1 =
      .siker "AA111" 80 ∧
    (jegy_foglalas rendszerMa hatKulonbozoGen 0 1 (some 1) "Kiss Pista" 5).2.1.foglalasok.length
      = 1 :=
  ⟨rfl, rfl, rfl⟩

/-- Witness for C2 at "now" = 9, strictly after the selected flight's
date 5: the operation fails with the already-departed outcome. -/
theorem C2_datum_ujraellenorzes_peldany :
    ((jegy_foglalas rendszerMa hatKulonbozoGen 0 1 (some 1) "Kiss Pista" 9).1 = .marElmult ↔
      ((legiMa.jaratok.filter fun j => j.statusz == JaratStatusz.AKTIV).getD
        ((1 : Int) - 1).toNat default).datum < 9) ∧
    (((legiMa.jaratok.filter fun j => j.statusz == JaratStatusz.AKTIV).getD
        ((1 : Int) - 1).toNat default).datum < 9 →
      jegy_foglalas rendszerMa hatKulonbozoGen 0 1 (some 1) "Kiss Pista" 9 =
        (.marElmult, rendszerMa, 0)) :=
  C2_datum_ujraellenorzes rendszerMa legiMa hatKulonbozoGen 0 1 1 "Kiss Pista" 9 rfl
    (by decide) (by decide)

/-- C1 (amended): every booking present after seeding has its id recorded in
the used-id set, and the book-ticket operation preserves the invariant that
all stored bookings' ids are recorded and pairwise distinct: the booking it
creates regenerates its id until it avoids every recorded id, and records
it. -/
theorem C1_foglalas_id_konyveles (r0 : RepuloJegyFoglalasiRendszer) (gen : Nat → String)
    (now : Int) (s : RepuloJegyFoglalasiRendszer) (r : RepuloJegyFoglalasiRendszer)
    (gen2 : Nat → String) (k fuel : Nat) (v : Option Int) (nev : String) (now2 : Int)
    (hseed : init_test_adatok r0 gen now = .ok s)
    (hinv : idInvarians r) :
    (∀ f ∈ s.foglalasok, f.foglalas_id ∈ s.existing_foglalas_ids) ∧
    idInvarians (jegy_foglalas r gen2 k fuel v nev now2).2.1 := by
  constructor
  · have hshape : ∃ (legi : Option Legitarsasag) (fog : List JegyFoglalas),
        init_test_adatok r0 gen now = Except.ok
          { legitarsasag := legi, foglalasok := fog,
            existing_foglalas_ids :=
              fog.foldl (fun halmaz g => insert g.foglalas_id halmaz)
                r0.existing_foglalas_ids } := ⟨_, _, rfl⟩
    obtain ⟨legi, fog, hform⟩ := hshape
    rw [hform] at hseed
    cases hseed
    intro f hf
    exact mem_foldl_insert_self fog _ f hf
  · rcases jegy_foglalas_esetek r gen2 k fuel v nev now2 with ⟨h, _⟩ |
      ⟨f, k2, hnotin, _, _, hop⟩
    · have h1 : (jegy_foglalas r gen2 k fuel v nev now2).2.1 = r := by rw [h]
      rw [h1]
      exact hinv
    · rw [hop]
      refine ⟨?_, ?_⟩
      · intro g hg
        rcases List.mem_append.mp hg with hg | hg
        · exact Finset.mem_insert_of_mem (hinv.1 g hg)
        · obtain rfl := List.mem_singleton.mp hg
          exact Finset.mem_insert_self _ _
      · show (foglalasIdk _).Nodup
        simp only [foglalasIdk, List.map_append, List.map_cons, List.map_nil]
        rw [List.nodup_append]
        refine ⟨hinv.2, List.nodup_singleton _, ?_⟩
        intro x hx hx2
        rw [List.mem_singleton] at hx2
        subst hx2
        obtain ⟨g, hg, hgid⟩ := List.mem_map.mp hx
        exact hnotin (hgid ▸ hinv.1 g hg)

/-- Counterexample for C1 as stated: under an id oracle that always yields
"AA000" (a run the real generator produces with positive probability), the
seeding routine creates six bookings whose ids are not pairwise distinct —
the seed performs no collision check. -/
theorem C1_utkozo_seed_ellenpelda :
    init_test_adatok uresRendszer allandoGen 20240101 = .ok seedUtkozoState ∧
    seedUtkozoState.foglalasok.length = 6 ∧
    ¬ (foglalasIdk seedUtkozoState).Nodup :=
  ⟨rfl, rfl, by decide⟩

/-- Witness for C1 on the well-seeded demo state and a fresh booking made
on `rendszerMa`. -/
theorem C1_foglalas_id_konyveles_peldany :
    (∀ f ∈ seedJoState.foglalasok, f.foglalas_id ∈ seedJoState.existing_foglalas_ids) ∧
    idInvarians (jegy_foglalas rendszerMa hatKulonbozoGen 0 1 (some 1) "Kiss Pista" 0).2.1 :=
  C1_foglalas_id_konyveles uresRendszer hatKulonbozoGen 20240101 seedJoState rendszerMa
    hatKulonbozoGen 0 1 (some 1) "Kiss Pista" 0 rfl
    ⟨fun f hf => absurd hf (by simp [rendszerMa]), by simp [foglalasIdk, rendszerMa]⟩

/-- C10: the add-a-flight operation strips and uppercases the entered
flight number before the duplicate check and insertion: entering a number
that differs from a stored one only in letter case (with otherwise valid
inputs) is rejected as a duplicate with no state change; every successfully
stored number is the stripped-and-uppercased input; and the
no-lowercase-letters property of stored flight numbers is preserved. -/
theorem C10_jaratszam_nagybetus (r : RepuloJegyFoglalasiRendszer) (legi : Legitarsasag)
    (n1 n2 i2 c2 : String) (ar2 : ℚ) (lg2 : String) (d2 : Int) (t2 : String) (now2 : Int)
    (hl : r.legitarsasag = some legi)
    (hmem : ∃ j ∈ legi.jaratok, j.jaratszam = pyUpper (pyStrip n1))
    (hcase : pyUpper (pyStrip n2) = pyUpper (pyStrip n1))
    (har : 0 < ar2)
    (ht : pyStrip t2 = "1" ∨ pyStrip t2 = "2") :
    (∃ uzenet, uj_jarat_hozzaadasa r n2 i2 c2 (some ar2) lg2 (some d2) t2 now2 =
      (.hiba uzenet, r)) ∧
    (∀ (nx ix cx : String) (arx : Option ℚ) (lgx : String) (dx : Option Int) (tx : String)
        (nowx : Int) (uj : Jarat) (r2 : RepuloJegyFoglalasiRendszer),
      uj_jarat_hozzaadasa r nx ix cx arx lgx dx tx nowx = (.siker uj, r2) →
      uj.jaratszam = pyUpper (pyStrip nx)) ∧
    (∀ (nx ix cx : String) (arx : Option ℚ) (lgx : String) (dx : Option Int) (tx : String)
        (nowx : Int),
      (∀ j ∈ jaratokOf r, nincsKisbetu j.jaratszam) →
      ∀ j ∈ jaratokOf (uj_jarat_hozzaadasa r nx ix cx arx lgx dx tx nowx).2,
        nincsKisbetu j.jaratszam) := by
  have har2 : ¬ ar2 ≤ 0 := not_le.mpr har
  refine ⟨?_, ?_, ?_⟩
  · rcases ht with ht | ht
    · have ht1 : (pyStrip t2 == "1") = true := by simp [ht]
      have hop : uj_jarat_hozzaadasa r n2 i2 c2 (some ar2) lg2 (some d2) t2 now2 =
          ujJaratHozzafuzes r (BelfoldiJarat.init (pyUpper (pyStrip n2)) (pyStrip i2)
            (pyStrip c2) ar2 (pyStrip lg2) d2 now2) := by
        simp [uj_jarat_hozzaadasa, hl, har2, ht1]
      have hdup : (legi.jaratok.any fun j => j.jaratszam ==
          (BelfoldiJarat.init (pyUpper (pyStrip n2)) (pyStrip i2) (pyStrip c2) ar2
            (pyStrip lg2) d2 now2).jaratszam) = true := by
        obtain ⟨j, hj, hjn⟩ := hmem
        rw [List.any_eq_true]
        exact ⟨j, hj, by simp [BelfoldiJarat.init, Jarat.init, hjn, hcase]⟩
      rw [hop, ujJaratHozzafuzes_hiba r legi _ hl hdup]
      exact ⟨_, rfl⟩
    · have ht2p : (pyStrip t2 == "1") = false := by simp [ht]
      have ht2 : (pyStrip t2 == "2") = true := by simp [ht]
      have hop : uj_jarat_hozzaadasa r n2 i2 c2 (some ar2) lg2 (some d2) t2 now2 =
          ujJaratHozzafuzes r (NemzetkoziJarat.init (pyUpper (pyStrip n2)) (pyStrip i2)
            (pyStrip c2) ar2 (pyStrip lg2) d2 now2) := by
        simp [uj_jarat_hozzaadasa, hl, har2, ht2p, ht2]
      have hdup : (legi.jaratok.any fun j => j.jaratszam ==
          (NemzetkoziJarat.init (pyUpper (pyStrip n2)) (pyStrip i2) (pyStrip c2) ar2
            (pyStrip lg2) d2 now2).jaratszam) = true := by
        obtain ⟨j, hj, hjn⟩ := hmem
        rw [List.any_eq_true]
        exact ⟨j, hj, by simp [NemzetkoziJarat.init, Jarat.init, hjn, hcase]⟩
      rw [hop, ujJaratHozzafuzes_hiba r legi _ hl hdup]
      exact ⟨_, rfl⟩
  · intro nx ix cx arx lgx dx tx nowx uj r2 heq
    rcases uj_jarat_hozzaadasa_esetek r nx ix cx arx lgx dx tx nowx with ⟨_, hne⟩ |
      ⟨legi0, uj0, _, hujn, hop⟩
    · exact absurd (by rw [heq]) (hne uj)
    · rw [hop] at heq
      injection heq with hfst _
      injection hfst with huj
      rw [← huj]
      exact hujn
  · intro nx ix cx arx lgx dx tx nowx hlow j hj
    rcases uj_jarat_hozzaadasa_esetek r nx ix cx arx lgx dx tx nowx with ⟨hst, _⟩ |
      ⟨legi0, uj0, hleg0, hujn, hop⟩
    · rw [hst] at hj
      exact hlow j hj
    · have h2 : (uj_jarat_hozzaadasa r nx ix cx arx lgx dx tx nowx).2 =
          { r with
            legitarsasag := some { nev := legi0.nev, jaratok := legi0.jaratok ++ [uj0] } } := by
        rw [hop]
      rw [h2] at hj
      simp only [jaratokOf] at hj
      rw [List.mem_append] at hj
      rcases hj with hj | hj
      · apply hlow
        simp only [jaratokOf, hleg0]
        exact hj
      · obtain rfl := List.mem_singleton.mp hj
        rw [hujn]
        exact pyUpper_nincsKisbetu _

/-- Witness for C10: the stored number "AB1" makes the case-variant entry
"Ab1" (with valid price, date and type inputs) fail as a duplicate. -/
theorem C10_jaratszam_nagybetus_peldany :
    (∃ uzenet, uj_jarat_hozzaadasa rendszerMa "Ab1" "X" "Y" (some 1) "L" (some 5) "1" 0 =
      (.hiba uzenet, rendszerMa)) ∧
    (∀ (nx ix cx : String) (arx : Option ℚ) (lgx : String) (dx : Option Int) (tx : String)
        (nowx : Int) (uj : Jarat) (r2 : RepuloJegyFoglalasiRendszer),
      uj_jarat_hozzaadasa rendszerMa nx ix cx arx lgx dx tx nowx = (.siker uj, r2) →
      uj.jaratszam = pyUpper (pyStrip nx)) ∧
    (∀ (nx ix cx : String) (arx : Option ℚ) (lgx : String) (dx : Option Int) (tx : String)
        (nowx : Int),
      (∀ j ∈ jaratokOf rendszerMa, nincsKisbetu j.jaratszam) →
      ∀ j ∈ jaratokOf (uj_jarat_hozzaadasa rendszerMa nx ix cx arx lgx dx tx nowx).2,
        nincsKisbetu j.jaratszam) :=
  C10_jaratszam_nagybetus rendszerMa legiMa "AB1" "Ab1" "X" "Y" 1 "L" 5 "1" 0 rfl
    ⟨jaratMa, List.mem_cons_self jaratMa [], rfl⟩ (by decide) one_pos (Or.inl rfl)

/-- C3 (amended): provided the seeding happens at a time on or after
2023-01-01 and strictly before 2025-06-10, the demo seed produces exactly
the three flights in insertion order — inactive domestic WIZ001 dated
2023-01-01, active domestic WIZ102 priced 20000×0.8 = 16000, active
international WIZ201 priced 50000×1.3 = 65000 — and six active bookings
(two against WIZ102, four against WIZ201), so the system status reports 3
flights, 2 active, 2 domestic, 1 international, 6 bookings, 6 active,
0 cancelled. -/
theorem C3_seed_allapot (gen : Nat → String) (now : Int) (s : RepuloJegyFoglalasiRendszer)
    (h1 : 20230101 ≤ now) (h2 : now < 20250610)
    (hs : init_test_adatok uresRendszer gen now = .ok s) :
    ((jaratokOf s).map fun j => (j.jaratszam, j.tipus, j.statusz)) =
      [("WIZ001", JaratTipus.belfoldi, JaratStatusz.INAKTIV),
       ("WIZ102", JaratTipus.belfoldi, JaratStatusz.AKTIV),
       ("WIZ201", JaratTipus.nemzetkozi, JaratStatusz.AKTIV)] ∧
    ((jaratokOf s).map fun j => j.jegyar) = [12000, 16000, 65000] ∧
    ((jaratokOf s).map fun j => j.datum) = [20230101, 20250610, 20250615] ∧
    (s.foglalasok.map fun f => (f.jaratszam, f.statusz)) =
      [("WIZ102", "Aktív"), ("WIZ102", "Aktív"), ("WIZ201", "Aktív"),
       ("WIZ201", "Aktív"), ("WIZ201", "Aktív"), ("WIZ201", "Aktív")] ∧
    rendszer_allapota s = ⟨some "Wizz Air Hungary", 3, 2, 2, 1, 6, 6, 0⟩ := by
  have hshape : ∃ ids : Finset String,
      init_test_adatok uresRendszer gen now = Except.ok
        { legitarsasag := some
            { nev := "Wizz Air Hungary",
              jaratok :=
                [BelfoldiJarat.init "WIZ001" "Budapest" "Debrecen" 15000 "Wizz Air" 20230101 now,
                 BelfoldiJarat.init "WIZ102" "Budapest" "Szeged" 20000 "Wizz Air" 20250610 now,
                 NemzetkoziJarat.init "WIZ201" "Budapest" "London" 50000 "Wizz Air" 20250615
                   now] },
          foglalasok :=
            [JegyFoglalas.init gen 0
               (BelfoldiJarat.init "WIZ102" "Budapest" "Szeged" 20000 "Wizz Air" 20250610 now)
               "Nagy János",
             JegyFoglalas.init gen 1
               (BelfoldiJarat.init "WIZ102" "Budapest" "Szeged" 20000 "Wizz Air" 20250610 now)
               "Kovács Béla",
             JegyFoglalas.init gen 2
               (NemzetkoziJarat.init "WIZ201" "Budapest" "London" 50000 "Wizz Air" 20250615 now)
               "Szabó Éva",
             JegyFoglalas.init gen 3
               (NemzetkoziJarat.init "WIZ201" "Budapest" "London" 50000 "Wizz Air" 20250615 now)
               "Kiss Zoltán",
             JegyFoglalas.init gen 4
               (NemzetkoziJarat.init "WIZ201" "Budapest" "London" 50000 "Wizz Air" 20250615 now)
               "Tóth Mária",
             JegyFoglalas.init gen 5
               (NemzetkoziJarat.init "WIZ201" "Budapest" "London" 50000 "Wizz Air" 20250615 now)
               "Horváth Péter"],
          existing_foglalas_ids := ids } := ⟨_, rfl⟩
  obtain ⟨ids, hform⟩ := hshape
  rw [hform] at hs
  cases hs
  have e1 : ¬ ((20230101 : Int) > now) := not_lt.mpr h1
  have e2 : (20250610 : Int) > now := h2
  have e3 : (20250615 : Int) > now := h2.trans (by norm_num)
  refine ⟨?_, ?_, ?_, ?_, ?_⟩
  · simp [jaratokOf, BelfoldiJarat.init, NemzetkoziJarat.init, Jarat.init, e1, e2, e3]
  · simp only [jaratokOf, List.map]
    norm_num [BelfoldiJarat.init, NemzetkoziJarat.init, Jarat.init]
  · simp [jaratokOf, BelfoldiJarat.init, NemzetkoziJarat.init, Jarat.init]
  · simp [JegyFoglalas.init, BelfoldiJarat.init, NemzetkoziJarat.init, Jarat.init]
  · simp [rendszer_allapota, jaratokOf, JegyFoglalas.init, BelfoldiJarat.init,
      NemzetkoziJarat.init, Jarat.init, JaratStatusz.AKTIV, JaratStatusz.INAKTIV,
      e1, e2, e3]
    all_goals decide

/-- Counterexample for C3 as stated: seeding at 2026-10-12 (after the demo
flight dates) yields zero active flights instead of two, because the demo
flights dated 2025-06-10 and 2025-06-15 are constructed inactive. -/
theorem C3_keso_seed_ellenpelda :
    init_test_adatok uresRendszer hatKulonbozoGen 20261012 = .ok seedKesoState ∧
    (rendszer_allapota seedKesoState).jaratokSzama = 3 ∧
    (rendszer_allapota seedKesoState).aktivJaratok = 0 :=
  ⟨rfl, by decide, by decide⟩

/-- Witness for C3: seeding at 2024-01-01 with six distinct ids. -/
theorem C3_seed_allapot_peldany :
    ((jaratokOf seedJoState).map fun j => (j.jaratszam, j.tipus, j.statusz)) =
      [("WIZ001", JaratTipus.belfoldi, JaratStatusz.INAKTIV),
       ("WIZ102", JaratTipus.belfoldi, JaratStatusz.AKTIV),
       ("WIZ201", JaratTipus.nemzetkozi, JaratStatusz.AKTIV)] ∧
    ((jaratokOf seedJoState).map fun j => j.jegyar) = [12000, 16000, 65000] ∧
    ((jaratokOf seedJoState).map fun j => j.datum) = [20230101, 20250610, 20250615] ∧
    (seedJoState.foglalasok.map fun f => (f.jaratszam, f.statusz)) =
      [("WIZ102", "Aktív"), ("WIZ102", "Aktív"), ("WIZ201", "Aktív"),
       ("WIZ201", "Aktív"), ("WIZ201", "Aktív"), ("WIZ201", "Aktív")] ∧
    rendszer_allapota seedJoState = ⟨some "Wizz Air Hungary", 3, 2, 2, 1, 6, 6, 0⟩ :=
  C3_seed_allapot hatKulonbozoGen 20240101 seedJoState (by decide) (by decide) rfl
